import Mathlib

/-!
Verification of src/SafeMathTransformer.py against its specification.

The module under verification is a sandboxed arithmetic evaluator built on the
CPython ast library: `calculator` strips whitespace, parses the text with
`ast.parse(mode='eval')`, walks the tree rejecting Call nodes, evaluates the
tree with a `SafeMathTransformer` visitor, applies a final magnitude check, and
formats the result; every internal exception is caught and turned into the
string "Invalid equation".

Modelling decisions, stated once here:

* The parser (`ast.parse`, line 70) and the whitespace stripping that feeds it
  (line 67) are external collaborators per the specification; the facade is
  embedded as `calculatorOnTree`, which receives the parse outcome (syntax
  error or expression tree) as an argument together with the original equation
  text (which line 93 echoes unstripped).
* Python floats are tracked as exact extended rationals (`PyFloat`): a finite
  double is carried as its exact rational value, plus the special values inf,
  -inf and nan.  IEEE-754 rounding and signed zero are abstracted away; every
  operation exercised by a theorem below (unary negation, exact zero test,
  comparison against the 1e308 bound at values far from that boundary) is
  exact in double precision, so the abstraction is faithful on all inputs that
  appear in the development.  The literal 1e308 is modelled as the rational
  10^308 (its double rounding error is below one ulp and no comparison in the
  development is decided inside that window).
* Python ints are unbounded (`Int`), matching CPython.
* Exceptions are modelled with `Except PyErr`; the `try/except Exception`
  of `calculator` (lines 64, 95-98) is the error branch of each match.
-/

set_option maxRecDepth 40000

namespace SaferMath

/-- Special-value-aware model of a CPython float: an exact rational for finite
doubles, plus inf, -inf and nan. -/
inductive PyFloat where
  | finite (q : ℚ)
  | inf
  | ninf
  | nan

/-- The Python runtime values that can appear in this module: the constant
types the parser can produce in `ast.Constant` (ints, bools, floats, strings,
None) — bools are included because Python `bool` is a subclass of `int`.
Python None also arises as the return value of `NodeVisitor.generic_visit`. -/
inductive PyVal where
  | intV (n : ℤ)
  | boolV (b : Bool)
  | floatV (f : PyFloat)
  | strV (s : String)
  | noneV

/-- The Python exception kinds raised inside `calculator`; all of them are
caught by the blanket `except Exception` at line 95.  Message strings follow
the source f-strings (quotes dropped). -/
inductive PyErr where
  | attributeError (msg : String)
  | valueError (msg : String)
  | typeError (msg : String)
  | zeroDivisionError (msg : String)
  | parseError (msg : String)

/-- The binary operator tags of the CPython ast (class names of `node.op` for
an `ast.BinOp`). -/
inductive BinOpKind where
  | Add | Sub | Mult | Div | Pow
  | Mod | FloorDiv | MatMult | LShift | RShift | BitOr | BitXor | BitAnd

/-- The unary operator tags of the CPython ast. -/
inductive UnaryOpKind where
  | UAdd | USub | Not | Invert

mutual
/-- The expression-tree universe: the node kinds of the CPython ast relevant
to this module.  `Constant` is what the parser emits for literals on Python
3.8+; `Num` is the deprecated pre-3.8 node, kept because the source defines
`visit_Num` (lines 31-32) and lists `ast.Num` among `valid_nodes` (line 73),
although `ast.parse` never produces it on the Pythons this code targets.
`Name` and `Compare` stand for the disallowed node kinds the specification
discusses; `expr_context` children (Load) and `cmpop` tags carry no
sub-expressions and are dropped. -/
inductive PyAst where
  | Constant (value : PyVal)
  | Num (n : PyVal)
  | BinOp (left : PyAst) (op : BinOpKind) (right : PyAst)
  | UnaryOp (op : UnaryOpKind) (operand : PyAst)
  | Call (func : PyAst) (args : PyAstList)
  | Name (id : String)
  | Compare (left : PyAst) (comparators : PyAstList)

/-- Child lists (call arguments, comparators). -/
inductive PyAstList where
  | nil
  | cons (head : PyAst) (tail : PyAstList)
end

/-- Python class name of a binary operator tag (`type(node.op).__name__`). -/
def binOpName : BinOpKind → String
  | .Add => "Add" | .Sub => "Sub" | .Mult => "Mult" | .Div => "Div"
  | .Pow => "Pow" | .Mod => "Mod" | .FloorDiv => "FloorDiv"
  | .MatMult => "MatMult" | .LShift => "LShift" | .RShift => "RShift"
  | .BitOr => "BitOr" | .BitXor => "BitXor" | .BitAnd => "BitAnd"

/-- Python class name of a unary operator tag. -/
def unaryOpName : UnaryOpKind → String
  | .UAdd => "UAdd" | .USub => "USub" | .Not => "Not" | .Invert => "Invert"

/-- Value of the float literal `1e308` at line 90 (see the header note on the
one-ulp abstraction). -/
def floatLimit : ℚ := 10 ^ 308

namespace PyFloat

/-- IEEE negation on the float model (exact on finite values). -/
def neg : PyFloat → PyFloat
  | finite q => finite (-q)
  | inf => ninf
  | ninf => inf
  | nan => nan

/-- IEEE absolute value on the float model. -/
def fabs : PyFloat → PyFloat
  | finite q => finite |q|
  | inf => inf
  | ninf => inf
  | nan => nan

/-- IEEE addition on the float model (exact on finite values). -/
def add : PyFloat → PyFloat → PyFloat
  | nan, _ => nan
  | _, nan => nan
  | inf, ninf => nan
  | ninf, inf => nan
  | inf, _ => inf
  | _, inf => inf
  | ninf, _ => ninf
  | _, ninf => ninf
  | finite a, finite b => finite (a + b)

/-- IEEE subtraction, as addition of the negation. -/
def sub (x y : PyFloat) : PyFloat := add x y.neg

/-- IEEE multiplication on the float model (exact on finite values);
inf times zero is nan. -/
def mul : PyFloat → PyFloat → PyFloat
  | nan, _ => nan
  | _, nan => nan
  | inf, inf => inf
  | inf, ninf => ninf
  | ninf, inf => ninf
  | ninf, ninf => inf
  | inf, finite b => if b = 0 then nan else if 0 < b then inf else ninf
  | finite a, inf => if a = 0 then nan else if 0 < a then inf else ninf
  | ninf, finite b => if b = 0 then nan else if 0 < b then ninf else inf
  | finite a, ninf => if a = 0 then nan else if 0 < a then ninf else inf
  | finite a, finite b => finite (a * b)

/-- Python float true division (exact on finite values); division by a zero
float raises ZeroDivisionError, matching CPython. -/
def divf : PyFloat → PyFloat → Except PyErr PyFloat
  | nan, nan => .ok nan
  | nan, finite b =>
      if b = 0 then .error (.zeroDivisionError "float division by zero") else .ok nan
  | nan, _ => .ok nan
  | finite _, nan => .ok nan
  | inf, nan => .ok nan
  | ninf, nan => .ok nan
  | finite a, finite b =>
      if b = 0 then .error (.zeroDivisionError "float division by zero")
      else .ok (finite (a / b))
  | inf, finite b =>
      if b = 0 then .error (.zeroDivisionError "float division by zero")
      else .ok (if b < 0 then ninf else inf)
  | ninf, finite b =>
      if b = 0 then .error (.zeroDivisionError "float division by zero")
      else .ok (if b < 0 then inf else ninf)
  | finite _, inf => .ok (finite 0)
  | finite _, ninf => .ok (finite 0)
  | inf, inf => .ok nan
  | inf, ninf => .ok nan
  | ninf, inf => .ok nan
  | ninf, ninf => .ok nan

end PyFloat

/-- Python bool-to-int coercion (`True` behaves as 1, `False` as 0). -/
def boolToInt (b : Bool) : ℤ := if b then 1 else 0

/-- The numeric tower: a Python number is an int (bools coerce to their int
value) or a float. -/
inductive PyNum where
  | intN (n : ℤ)
  | fltN (f : PyFloat)

/-- View a value as a number, if it is one (bool is a subclass of int). -/
def PyVal.asNum : PyVal → Option PyNum
  | .intV n => some (.intN n)
  | .boolV b => some (.intN (boolToInt b))
  | .floatV f => some (.fltN f)
  | _ => none

/-- Back from the numeric tower to a runtime value. -/
def PyNum.toVal : PyNum → PyVal
  | .intN n => .intV n
  | .fltN f => .floatV f

/-- Promote a number to the float model (CPython int-to-float conversion;
exact here since finite floats are exact rationals). -/
def PyNum.toFloat : PyNum → PyFloat
  | .intN n => .finite (n : ℚ)
  | .fltN f => f

/-- Python `==` against the int literal 0, as used by `handle_division`
(line 16): true exactly for int 0, False, 0.0 and -0.0; every non-number and
every nonzero or non-finite float compares unequal (nan included). -/
def pyEqZero : PyVal → Bool
  | .intV n => decide (n = 0)
  | .boolV b => !b
  | .floatV (.finite q) => decide (q = 0)
  | .floatV _ => false
  | _ => false

/-- Python binary `+` as used by the `Add` lambda (line 6): numeric addition
with int/float promotion, plus string concatenation; anything else raises
TypeError.  (Other sequence concatenations are not modelled; nothing in the
development can reach them — the operator table holding this function is never
created, see `SafeMathTransformer.new`.) -/
def pyAdd (x y : PyVal) : Except PyErr PyVal :=
  match x.asNum, y.asNum with
  | some (.intN a), some (.intN b) => .ok (.intV (a + b))
  | some a, some b => .ok (.floatV (PyFloat.add a.toFloat b.toFloat))
  | _, _ =>
    match x, y with
    | .strV s, .strV t => .ok (.strV (s ++ t))
    | _, _ => .error (.typeError "unsupported operand types for +")

/-- Python binary `-` as used by the `Sub` lambda (line 7). -/
def pySub (x y : PyVal) : Except PyErr PyVal :=
  match x.asNum, y.asNum with
  | some (.intN a), some (.intN b) => .ok (.intV (a - b))
  | some a, some b => .ok (.floatV (PyFloat.sub a.toFloat b.toFloat))
  | _, _ => .error (.typeError "unsupported operand types for -")

/-- Python binary `*` as used by the `Mult` lambda (line 8).  (Sequence
replication is not modelled; unreachable for the same reason as in `pyAdd`.) -/
def pyMult (x y : PyVal) : Except PyErr PyVal :=
  match x.asNum, y.asNum with
  | some (.intN a), some (.intN b) => .ok (.intV (a * b))
  | some a, some b => .ok (.floatV (PyFloat.mul a.toFloat b.toFloat))
  | _, _ => .error (.typeError "unsupported operand types for *")

/-- Python `/` (true division) as used inside `handle_division` (line 19):
always produces a float on numbers; division by an exactly-zero number raises
ZeroDivisionError, matching CPython. -/
def pyDiv (x y : PyVal) : Except PyErr PyVal :=
  match x.asNum, y.asNum with
  | some a, some b =>
    match PyFloat.divf a.toFloat b.toFloat with
    | .ok f => .ok (.floatV f)
    | .error e => .error e
  | _, _ => .error (.typeError "unsupported operand types for /")

/-- Python `**` as used by the `Pow` lambda (line 10), on integer-valued
exponents: int ** nonnegative int stays an int, a negative exponent produces
the exact reciprocal as a float, and a zero base with a negative exponent
raises ZeroDivisionError.  Non-integer exponents and non-finite operands fall
outside the exact-rational float model and are mapped to a modelling error;
the branch is unreachable in every theorem below because the operator table
holding this function is never created (see `SafeMathTransformer.new`). -/
def pyPow (x y : PyVal) : Except PyErr PyVal :=
  match x.asNum, y.asNum with
  | some (.intN a), some (.intN b) =>
      if 0 ≤ b then .ok (.intV (a ^ b.toNat))
      else if a = 0 then .error (.zeroDivisionError "zero to a negative power")
      else .ok (.floatV (.finite ((a : ℚ) ^ b)))
  | some (.fltN (.finite a)), some (.intN b) =>
      if a = 0 ∧ b < 0 then .error (.zeroDivisionError "zero to a negative power")
      else .ok (.floatV (.finite (a ^ b)))
  | some _, some _ => .error (.valueError "pow outside the exact-rational float model")
  | _, _ => .error (.typeError "unsupported operand types for **")

/-- Python unary `-` (the `USub` lambda at line 45): negation on numbers, with
bools coerced to int; TypeError otherwise. -/
def pyNeg : PyVal → Except PyErr PyVal
  | .intV n => .ok (.intV (-n))
  | .boolV b => .ok (.intV (-(boolToInt b)))
  | .floatV f => .ok (.floatV f.neg)
  | _ => .error (.typeError "bad operand type for unary -")

/-- Python unary `+` (the `UAdd` lambda at line 46): identity on ints and
floats, but it coerces a bool to its int value (`+True` is `1`). -/
def pyPos : PyVal → Except PyErr PyVal
  | .intV n => .ok (.intV n)
  | .boolV b => .ok (.intV (boolToInt b))
  | .floatV f => .ok (.floatV f)
  | _ => .error (.typeError "bad operand type for unary +")

/-- Python `abs` as applied at line 90: absolute value on numbers (bools give
their int value), TypeError on anything else (in particular on the Python
None that `generic_visit` returns for non-arithmetic trees). -/
def pyAbs : PyVal → Except PyErr PyVal
  | .intV n => .ok (.intV |n|)
  | .boolV b => .ok (.intV (boolToInt b))
  | .floatV f => .ok (.floatV f.fabs)
  | _ => .error (.typeError "bad operand type for abs")

/-- The test `isinstance(node.value, (int, float))` at line 36.  Crucially,
Python `bool` is a subclass of `int`, so booleans pass this test. -/
def PyVal.isNumeric : PyVal → Bool
  | .intV _ => true
  | .boolV _ => true
  | .floatV _ => true
  | _ => false

/-- String form of a float in an f-string.  The spellings "inf", "-inf" and
"nan" match CPython; the rendering of finite values abstracts CPython
shortest-repr (no claim depends on that branch). -/
def floatStr : PyFloat → String
  | .inf => "inf"
  | .ninf => "-inf"
  | .nan => "nan"
  | .finite q =>
      if q.den = 1 then toString q.num ++ ".0"
      else toString q.num ++ "/" ++ toString q.den

/-- Conversion of a value to its f-string form, as used at line 93. -/
def pyStr : PyVal → String
  | .intV n => toString n
  | .boolV true => "True"
  | .boolV false => "False"
  | .floatV f => floatStr f
  | .strV s => s
  | .noneV => "None"

/-- Embedding of `SafeMathTransformer.handle_division` (lines 15-19): raise
ValueError when `denominator == 0` (Python equality against the int 0), else
return the true-division quotient. -/
def handle_division (numerator denominator : PyVal) : Except PyErr PyVal :=
  if pyEqZero denominator then
    .error (.valueError ("Division by zero: " ++ pyStr numerator ++ " / " ++ pyStr denominator))
  else
    pyDiv numerator denominator

/-- The operator dictionary that the method `init` (lines 4-13) would build,
keyed by `type(node.op).__name__`, mapping each key to the embedding of the
corresponding lambda (lines 6-10).  NOTE: nothing in the source ever calls
`init` — see `SafeMathTransformer.new`. -/
def initAllowedOperators : String → Option (PyVal → PyVal → Except PyErr PyVal) := fun name =>
  if name = "Add" then some pyAdd
  else if name = "Sub" then some pySub
  else if name = "Mult" then some pyMult
  else if name = "Div" then some handle_division
  else if name = "Pow" then some pyPow
  else none

/-- The transformer object.  `allowed_operators` and `result` are `Option`s
because a Python attribute may simply not exist on the object: reading a
missing attribute raises AttributeError. -/
structure SafeMathTransformer where
  allowed_operators : Option (String → Option (PyVal → PyVal → Except PyErr PyVal))
  result : Option PyVal

/-- Embedding of the constructor call `SafeMathTransformer()` at line 85.
The class defines a method named `init` (line 4), not `__init__`, so Python
object construction runs the default initializer and the body of `init` never
executes: the fresh object has NO `allowed_operators` and NO `result`
attribute. -/
def SafeMathTransformer.new : SafeMathTransformer :=
  { allowed_operators := none, result := none }

/-- Embedding of the method `init` (lines 4-13) as it would execute if it were
ever called: it would install the operator table and set `self.result = None`.
No call site exists in the source. -/
def SafeMathTransformer.init (self : SafeMathTransformer) : SafeMathTransformer :=
  { self with allowed_operators := some initAllowedOperators, result := some .noneV }

/-- Message of the AttributeError CPython raises at line 24 when
`self.allowed_operators` does not exist (quotes dropped). -/
def attrMsg : String :=
  "SafeMathTransformer object has no attribute allowed_operators"

/-- The local operator dictionary of `visit_UnaryOp` (lines 44-47), keyed by
`type(node.op).__name__`. -/
def unaryTable : String → Option (PyVal → Except PyErr PyVal) := fun name =>
  if name = "USub" then some pyNeg
  else if name = "UAdd" then some pyPos
  else none

mutual
/-- Embedding of the visitor dispatch of `ast.NodeVisitor.visit` together with
the visit methods of `SafeMathTransformer` (lines 21-52), run with the given
`allowed_operators` attribute state:

* `BinOp` (lines 21-29): visit left, then right, then read
  `self.allowed_operators` — AttributeError if the attribute does not exist —
  then look the operator name up, ValueError on a miss, else apply.
* `Num` (lines 31-32): return `node.n` unchecked.
* `Constant` (lines 34-39): return the value if `isinstance(value, (int,
  float))`, else ValueError.
* `UnaryOp` (lines 41-52): visit the operand, then look the operator up in
  the local dict, ValueError on a miss, else apply.
* every other node kind has no `visit_` method, so `NodeVisitor.visit` falls
  back to `generic_visit`, which visits each AST child in field order
  (propagating any exception) and returns Python None. -/
def visit (ops : Option (String → Option (PyVal → PyVal → Except PyErr PyVal))) :
    PyAst → Except PyErr PyVal
  | .BinOp left op right =>
    match visit ops left with
    | .error e => .error e
    | .ok l =>
      match visit ops right with
      | .error e => .error e
      | .ok r =>
        match ops with
        | none => .error (.attributeError attrMsg)
        | some table =>
          match table (binOpName op) with
          | none => .error (.valueError ("Operator " ++ binOpName op ++ " not allowed"))
          | some f => f l r
  | .Num n => .ok n
  | .Constant v =>
      if v.isNumeric then .ok v
      else .error (.valueError "Only numeric constants allowed")
  | .UnaryOp op operand =>
    match visit ops operand with
    | .error e => .error e
    | .ok v =>
      match unaryTable (unaryOpName op) with
      | none => .error (.valueError ("Unary operator " ++ unaryOpName op ++ " not allowed"))
      | some f => f v
  | .Call func args =>
    match visit ops func with
    | .error e => .error e
    | .ok _ =>
      match visitList ops args with
      | .error e => .error e
      | .ok _ => .ok .noneV
  | .Name _ => .ok .noneV
  | .Compare left comparators =>
    match visit ops left with
    | .error e => .error e
    | .ok _ =>
      match visitList ops comparators with
      | .error e => .error e
      | .ok _ => .ok .noneV

/-- generic_visit over a child list: visit each child in order, discarding
values, propagating the first exception. -/
def visitList (ops : Option (String → Option (PyVal → PyVal → Except PyErr PyVal))) :
    PyAstList → Except PyErr Unit
  | .nil => .ok ()
  | .cons head tail =>
    match visit ops head with
    | .error e => .error e
    | .ok _ => visitList ops tail
end

/-- Embedding of the overriding `visit` method (lines 54-57): dispatch, then
store the outcome in `self.result` and also return it. -/
def SafeMathTransformer.runVisit (self : SafeMathTransformer) (t : PyAst) :
    Except PyErr (SafeMathTransformer × PyVal) :=
  match visit self.allowed_operators t with
  | .error e => .error e
  | .ok v => .ok ({ self with result := some v }, v)

/-- Is this node an `ast.Call` (the test at line 77)? -/
def isCallNode : PyAst → Bool
  | .Call _ _ => true
  | _ => false

/-- The test `isinstance(node, valid_nodes)` with `valid_nodes = (ast.BinOp,
ast.Num, ast.Constant, ast.UnaryOp, ast.UAdd, ast.USub)` (lines 73-74 and 80).
In this model unary operator tags live inside their `UnaryOp` node, so the
`ast.UAdd`/`ast.USub` members match no walked node kind here; they would only
make the test true for tag objects, which are accepted anyway by the second
disjunct of line 80. -/
def isValidNodeType : PyAst → Bool
  | .BinOp _ _ _ => true
  | .Num _ => true
  | .Constant _ => true
  | .UnaryOp _ _ => true
  | _ => false

/-- The second disjunct at line 80: `isinstance(type(node).__name__, str)`.
The `__name__` of a class is always a `str`, so this is true for every node —
which silently disables the reject-unknown-nodes branch at line 83. -/
def typeNameIsStr : PyAst → Bool := fun _ => true

/-- One iteration of the validation loop (lines 76-83) at a single walked
node: true when the loop would return "Invalid equation" at this node. -/
def nodeRejected (n : PyAst) : Bool :=
  if isCallNode n then true
  else if isValidNodeType n || typeNameIsStr n then false
  else true

mutual
/-- The whole validation loop: `ast.walk` (line 76) yields every node of the
tree and the loop rejects iff some walked node makes an iteration reject.
Walk order (breadth-first in CPython) is immaterial to this disjunction.
Operator tags and expression contexts, which `ast.walk` also yields, are never
Call nodes and are accepted by the always-true line 80 test, so dropping them
from the model does not change the disjunction. -/
def walkRejects (t : PyAst) : Bool :=
  nodeRejected t ||
    match t with
    | .BinOp l _ r => walkRejects l || walkRejects r
    | .UnaryOp _ x => walkRejects x
    | .Call f args => walkRejects f || walkListRejects args
    | .Compare l cs => walkRejects l || walkListRejects cs
    | _ => false

/-- The validation loop over a child list. -/
def walkListRejects : PyAstList → Bool
  | .nil => false
  | .cons head tail => walkRejects head || walkListRejects tail
end

/-- The comparison `abs(result) > 1e308` at line 90, applied to the outcome of
`pyAbs` (an int or a float): nan compares false against everything, inf
compares greater than the bound.  The non-number branches are unreachable
because `pyAbs` only returns numbers. -/
def gtLimit : PyVal → Bool
  | .intV n => decide (floatLimit < (n : ℚ))
  | .boolV _ => false
  | .floatV (.finite q) => decide (floatLimit < q)
  | .floatV .inf => true
  | .floatV .ninf => false
  | .floatV .nan => false
  | _ => false

/-- Embedding of the overflow check (lines 89-91): compute `abs(result)`
(which itself raises TypeError on the Python None produced for non-arithmetic
trees), raise ValueError when it exceeds the 1e308 bound, else pass the
result through unchanged to the formatting step. -/
def checkOverflow (result : PyVal) : Except PyErr PyVal :=
  match pyAbs result with
  | .error e => .error e
  | .ok a => if gtLimit a then .error (.valueError "Result too large") else .ok result

/-- The uniform rejection string (lines 78, 83, 98). -/
def invalidEquation : String := "Invalid equation"

/-- The facade `calculator` (lines 59-98) from the parse outcome on, with the
evaluation step abstracted as a parameter (instantiated by
`calculatorOnTree`; the extra generality lets us state that trees rejected by
the walk are never evaluated):

* a parse failure is caught by the except at line 95;
* the validation walk (lines 72-83) runs before any evaluation;
* then the transformer is constructed (line 85) and run (line 87) by
  `evalStep`, then the overflow check (lines 89-91), any exception being
  caught at line 95;
* on success, line 93 formats the ORIGINAL equation text with the result. -/
def calculatorGen (evalStep : PyAst → Except PyErr (SafeMathTransformer × PyVal))
    (equation : String) (parsed : Except PyErr PyAst) : String :=
  match parsed with
  | .error _ => invalidEquation
  | .ok body =>
    if walkRejects body then invalidEquation
    else
      match evalStep body with
      | .error _ => invalidEquation
      | .ok (_, result) =>
        match checkOverflow result with
        | .error _ => invalidEquation
        | .ok r => equation ++ " = " ++ pyStr r

/-- The facade `calculator` itself: the evaluation step constructs a fresh
transformer with `SafeMathTransformer()` (line 85) — whose `init` is never
called — and runs its `visit` on the parsed expression body (line 87). -/
def calculatorOnTree (equation : String) (parsed : Except PyErr PyAst) : String :=
  calculatorGen (fun body => SafeMathTransformer.new.runVisit body) equation parsed

/-- A sequence of independent facade calls, each given as (original equation
text, parse outcome).  Each call constructs its own fresh transformer inside
`calculatorOnTree`; the source module has no module-level mutable state, so a
batch is exactly the per-call map. -/
def calculatorBatch (calls : List (String × Except PyErr PyAst)) : List String :=
  calls.map (fun c => calculatorOnTree c.1 c.2)

mutual
/-- Does the tree contain a BinOp node whose operator tag satisfies `p`? -/
def treeHasBinP (p : BinOpKind → Bool) : PyAst → Bool
  | .BinOp l op r => p op || treeHasBinP p l || treeHasBinP p r
  | .UnaryOp _ x => treeHasBinP p x
  | .Call f args => treeHasBinP p f || listHasBinP p args
  | .Compare l cs => treeHasBinP p l || listHasBinP p cs
  | _ => false

/-- List version of `treeHasBinP`. -/
def listHasBinP (p : BinOpKind → Bool) : PyAstList → Bool
  | .nil => false
  | .cons head tail => treeHasBinP p head || listHasBinP p tail
end

/-- Does the tree contain any binary-operation node? -/
def treeHasBinOp : PyAst → Bool := treeHasBinP (fun _ => true)

/-- Is this tag the true-division operator? -/
def isDivKind : BinOpKind → Bool
  | .Div => true
  | _ => false

/-- Does the tree contain a division node? -/
def treeHasDiv : PyAst → Bool := treeHasBinP isDivKind

mutual
/-- Does the tree contain a Call node anywhere? -/
def treeHasCall : PyAst → Bool
  | .Call _ _ => true
  | .BinOp l _ r => treeHasCall l || treeHasCall r
  | .UnaryOp _ x => treeHasCall x
  | .Compare l cs => treeHasCall l || listHasCall cs
  | _ => false

/-- List version of `treeHasCall`. -/
def listHasCall : PyAstList → Bool
  | .nil => false
  | .cons head tail => treeHasCall head || listHasCall tail
end

/-- Is this binary tag one of the five allowed by the specification? -/
def allowedBinKind : BinOpKind → Bool
  | .Add => true | .Sub => true | .Mult => true | .Div => true | .Pow => true
  | _ => false

/-- Is this unary tag one of the two signs allowed by the specification? -/
def allowedUnaryKind : UnaryOpKind → Bool
  | .UAdd => true | .USub => true
  | _ => false

/-- Spec-side definition, written from the specification's words for
comparison with the source validator: a tree is allowed when, transitively at
every depth, each node is one of the three allowed variants — a numeric
literal, a binary arithmetic operation over the five allowed operators, or a
unary sign. -/
def specAllowedTree : PyAst → Bool
  | .Constant v => v.isNumeric
  | .BinOp l op r => allowedBinKind op && specAllowedTree l && specAllowedTree r
  | .UnaryOp op x => allowedUnaryKind op && specAllowedTree x
  | _ => false

end SaferMath

namespace SaferMath

/-! ## Helper lemmas (shared; none of these is a claim theorem) -/

/-- A single validation-loop iteration rejects a node exactly when it is a
Call node: the second disjunct of line 80 is true for every node, so the
fallthrough reject at line 83 is unreachable. -/
theorem nodeRejected_eq_isCallNode (n : PyAst) : nodeRejected n = isCallNode n := by
  cases h : isCallNode n <;> simp [nodeRejected, typeNameIsStr, h]

mutual
/-- The whole validation walk rejects a tree exactly when the tree contains a
Call node somewhere. -/
theorem walkRejects_eq_treeHasCall (t : PyAst) : walkRejects t = treeHasCall t := by
  cases t with
  | Constant v => rfl
  | Num n => rfl
  | Name s => rfl
  | BinOp l op r =>
      simp [walkRejects, treeHasCall, nodeRejected_eq_isCallNode, isCallNode,
        walkRejects_eq_treeHasCall l, walkRejects_eq_treeHasCall r]
  | UnaryOp op x =>
      simp [walkRejects, treeHasCall, nodeRejected_eq_isCallNode, isCallNode,
        walkRejects_eq_treeHasCall x]
  | Call f args =>
      simp [walkRejects, treeHasCall, nodeRejected_eq_isCallNode, isCallNode]
  | Compare l cs =>
      simp [walkRejects, treeHasCall, nodeRejected_eq_isCallNode, isCallNode,
        walkRejects_eq_treeHasCall l, walkListRejects_eq_listHasCall cs]

/-- List version of `walkRejects_eq_treeHasCall`. -/
theorem walkListRejects_eq_listHasCall (l : PyAstList) : walkListRejects l = listHasCall l := by
  cases l with
  | nil => rfl
  | cons head tail =>
      simp [walkListRejects, listHasCall,
        walkRejects_eq_treeHasCall head, walkListRejects_eq_listHasCall tail]
end

mutual
/-- On the transformer that `calculator` actually builds (no
`allowed_operators` attribute), visiting any tree that contains a BinOp node
raises some exception: the BinOp itself raises AttributeError at line 24, or
a sub-visit fails even earlier and the exception propagates. -/
theorem visit_error_of_hasBinP (p : BinOpKind → Bool) (t : PyAst)
    (h : treeHasBinP p t = true) : ∃ e, visit Option.none t = Except.error e := by
  cases t with
  | Constant v => simp [treeHasBinP] at h
  | Num n => simp [treeHasBinP] at h
  | Name s => simp [treeHasBinP] at h
  | BinOp l op r =>
      rcases hl : visit Option.none l with e | lv
      · exact ⟨e, by simp [visit, hl]⟩
      · rcases hr : visit Option.none r with e | rv
        · exact ⟨e, by simp [visit, hl, hr]⟩
        · exact ⟨PyErr.attributeError attrMsg, by simp [visit, hl, hr]⟩
  | UnaryOp op x =>
      simp only [treeHasBinP] at h
      obtain ⟨e, he⟩ := visit_error_of_hasBinP p x h
      exact ⟨e, by simp [visit, he]⟩
  | Call f args =>
      simp only [treeHasBinP, Bool.or_eq_true] at h
      rcases hf : visit Option.none f with e | fv
      · exact ⟨e, by simp [visit, hf]⟩
      · rcases h with h | h
        · obtain ⟨e, he⟩ := visit_error_of_hasBinP p f h
          rw [he] at hf
          exact absurd hf (by simp)
        · obtain ⟨e, he⟩ := visitList_error_of_hasBinP p args h
          exact ⟨e, by simp [visit, hf, he]⟩
  | Compare l cs =>
      simp only [treeHasBinP, Bool.or_eq_true] at h
      rcases hl : visit Option.none l with e | lv
      · exact ⟨e, by simp [visit, hl]⟩
      · rcases h with h | h
        · obtain ⟨e, he⟩ := visit_error_of_hasBinP p l h
          rw [he] at hl
          exact absurd hl (by simp)
        · obtain ⟨e, he⟩ := visitList_error_of_hasBinP p cs h
          exact ⟨e, by simp [visit, hl, he]⟩

/-- List version of `visit_error_of_hasBinP`. -/
theorem visitList_error_of_hasBinP (p : BinOpKind → Bool) (l : PyAstList)
    (h : listHasBinP p l = true) : ∃ e, visitList Option.none l = Except.error e := by
  cases l with
  | nil => simp [listHasBinP] at h
  | cons head tail =>
      simp only [listHasBinP, Bool.or_eq_true] at h
      rcases hh : visit Option.none head with e | v
      · exact ⟨e, by simp [visitList, hh]⟩
      · rcases h with h | h
        · obtain ⟨e, he⟩ := visit_error_of_hasBinP p head h
          rw [he] at hh
          exact absurd hh (by simp)
        · obtain ⟨e, he⟩ := visitList_error_of_hasBinP p tail h
          exact ⟨e, by simp [visitList, hh, he]⟩
end

/-- Facade outcome when the validation walk rejects. -/
theorem calcOT_walk_rejected (equation : String) (t : PyAst)
    (hw : walkRejects t = true) :
    calculatorOnTree equation (Except.ok t) = invalidEquation := by
  simp [calculatorOnTree, calculatorGen, hw]

/-- The generalized facade never evaluates a tree the walk rejects: the
outcome is the rejection string whatever the evaluation step is. -/
theorem calcGen_walk_rejected (evalStep : PyAst → Except PyErr (SafeMathTransformer × PyVal))
    (equation : String) (t : PyAst) (hw : walkRejects t = true) :
    calculatorGen evalStep equation (Except.ok t) = invalidEquation := by
  simp [calculatorGen, hw]

/-- Facade outcome when evaluation raises: the exception is caught at line 95. -/
theorem calcOT_visit_error (equation : String) (t : PyAst) (e : PyErr)
    (hw : walkRejects t = false) (hv : visit Option.none t = Except.error e) :
    calculatorOnTree equation (Except.ok t) = invalidEquation := by
  simp [calculatorOnTree, calculatorGen, hw, SafeMathTransformer.runVisit,
    SafeMathTransformer.new, hv]

/-- Facade outcome when the final magnitude check raises. -/
theorem calcOT_check_error (equation : String) (t : PyAst) (v : PyVal) (e : PyErr)
    (hw : walkRejects t = false) (hv : visit Option.none t = Except.ok v)
    (hc : checkOverflow v = Except.error e) :
    calculatorOnTree equation (Except.ok t) = invalidEquation := by
  simp [calculatorOnTree, calculatorGen, hw, SafeMathTransformer.runVisit,
    SafeMathTransformer.new, hv, hc]

/-- Facade outcome on full success: line 93 echoes the original equation text
and appends the formatted result. -/
theorem calcOT_format (equation : String) (t : PyAst) (v r : PyVal)
    (hw : walkRejects t = false) (hv : visit Option.none t = Except.ok v)
    (hc : checkOverflow v = Except.ok r) :
    calculatorOnTree equation (Except.ok t) = equation ++ " = " ++ pyStr r := by
  simp [calculatorOnTree, calculatorGen, hw, SafeMathTransformer.runVisit,
    SafeMathTransformer.new, hv, hc]

end SaferMath

namespace SaferMath

/-! ## Claim theorems -/

/-- C1: the claim says that a syntactically correct arithmetic input such as
"2+3*4" makes `calculate` return "2+3*4 = 14".  The code does not: the
constructor is named `init`, not `__init__`, so the fresh transformer has no
`allowed_operators` attribute, `visit_BinOp` raises AttributeError, and the
facade answers "Invalid equation".  This theorem evaluates the embedded code
at the failing input (the tree is what `ast.parse` produces for "2+3*4",
multiplication nested under addition). -/
theorem calculator_rejects_precedence_example :
    calculatorOnTree "2+3*4"
      (Except.ok (PyAst.BinOp (PyAst.Constant (PyVal.intV 2)) BinOpKind.Add
        (PyAst.BinOp (PyAst.Constant (PyVal.intV 3)) BinOpKind.Mult
          (PyAst.Constant (PyVal.intV 4))))) = invalidEquation := by
  decide

/-- C2: the transformer built at line 85 has no `allowed_operators` attribute
(the constructor is named `init`, not `__init__`, and is never called); a
BinOp node whose operands evaluate cleanly therefore raises AttributeError at
line 24; and every tree containing at least one binary-operation node makes
the facade return "Invalid equation" (either the tree also contains a Call
and is rejected by the walk, or evaluation raises and the exception is caught
at line 95). -/
theorem binop_trees_rejected_attr_missing :
    SafeMathTransformer.new.allowed_operators = Option.none ∧
    (∀ (op : BinOpKind) (a b : ℤ),
        visit SafeMathTransformer.new.allowed_operators
          (PyAst.BinOp (PyAst.Constant (PyVal.intV a)) op (PyAst.Constant (PyVal.intV b))) =
          Except.error (PyErr.attributeError attrMsg)) ∧
    (∀ (equation : String) (t : PyAst), treeHasBinOp t = true →
        calculatorOnTree equation (Except.ok t) = invalidEquation) := by
  refine ⟨rfl, fun op a b => rfl, ?_⟩
  intro equation t ht
  obtain ⟨e, he⟩ := visit_error_of_hasBinP (fun _ => true) t ht
  cases hw : walkRejects t with
  | true => exact calcOT_walk_rejected equation t hw
  | false => exact calcOT_visit_error equation t e hw he

/-- Witness for C2 at a concrete input: the tree of "1-1". -/
theorem binop_trees_rejected_attr_missing_witness :
    SafeMathTransformer.new.allowed_operators = Option.none ∧
    calculatorOnTree "1-1"
      (Except.ok (PyAst.BinOp (PyAst.Constant (PyVal.intV 1)) BinOpKind.Sub
        (PyAst.Constant (PyVal.intV 1)))) = invalidEquation :=
  ⟨binop_trees_rejected_attr_missing.1,
   binop_trees_rejected_attr_missing.2.2 "1-1" _ (by decide)⟩

/-- C3: every tree containing a Call node anywhere is rejected by the
explicit call check of the validation walk (line 77), and the call is never
evaluated: the facade returns "Invalid equation" for ANY evaluation step, so
the outcome does not depend on the evaluator at all. -/
theorem call_trees_rejected_before_evaluation :
    ∀ (equation : String) (t : PyAst), treeHasCall t = true →
      calculatorOnTree equation (Except.ok t) = invalidEquation ∧
      ∀ evalStep : PyAst → Except PyErr (SafeMathTransformer × PyVal),
        calculatorGen evalStep equation (Except.ok t) = invalidEquation := by
  intro equation t ht
  have hw : walkRejects t = true := by rw [walkRejects_eq_treeHasCall]; exact ht
  exact ⟨calcOT_walk_rejected equation t hw,
         fun evalStep => calcGen_walk_rejected evalStep equation t hw⟩

/-- Witness for C3 at a concrete input: the tree of "abs(-1)", with a
deliberately successful dummy evaluation step to show it is ignored. -/
theorem call_trees_rejected_before_evaluation_witness :
    treeHasCall (PyAst.Call (PyAst.Name "abs")
      (PyAstList.cons (PyAst.UnaryOp UnaryOpKind.USub (PyAst.Constant (PyVal.intV 1)))
        PyAstList.nil)) = true ∧
    calculatorOnTree "abs(-1)"
      (Except.ok (PyAst.Call (PyAst.Name "abs")
        (PyAstList.cons (PyAst.UnaryOp UnaryOpKind.USub (PyAst.Constant (PyVal.intV 1)))
          PyAstList.nil))) = invalidEquation ∧
    calculatorGen (fun _ => Except.ok (SafeMathTransformer.new, PyVal.intV 0)) "abs(-1)"
      (Except.ok (PyAst.Call (PyAst.Name "abs")
        (PyAstList.cons (PyAst.UnaryOp UnaryOpKind.USub (PyAst.Constant (PyVal.intV 1)))
          PyAstList.nil))) = invalidEquation :=
  ⟨by decide,
   (call_trees_rejected_before_evaluation "abs(-1)" _ (by decide)).1,
   (call_trees_rejected_before_evaluation "abs(-1)" _ (by decide)).2 _⟩

/-- C4: the claim says a tree that passes validation contains only the three
allowed variants and that a name or comparison node causes validation to
reject.  The code's validator does not: because `isinstance(type(node).__name__,
str)` at line 80 is true for every node, the loop only ever rejects Call
nodes, so a Name node and a Compare node pass validation even though the
spec-side whitelist (`specAllowedTree`) rejects them.  This theorem evaluates
the embedded validator at those failing inputs. -/
theorem validator_accepts_disallowed_name_node :
    walkRejects (PyAst.Name "x") = false ∧
    specAllowedTree (PyAst.Name "x") = false ∧
    walkRejects (PyAst.Compare (PyAst.Constant (PyVal.intV 1))
      (PyAstList.cons (PyAst.Constant (PyVal.intV 2)) PyAstList.nil)) = false ∧
    specAllowedTree (PyAst.Compare (PyAst.Constant (PyVal.intV 1))
      (PyAstList.cons (PyAst.Constant (PyVal.intV 2)) PyAstList.nil)) = false := by
  decide

/-- C5 counterexample: the claim says every literal holding a non-numeric
value — a boolean among them — is answered with "Invalid equation".  But
Python `bool` is a subclass of `int`, so `isinstance(True, (int, float))` at
line 36 is true: the input "True" (which parses to a Constant holding the
boolean True) is evaluated and echoed as "True = True", not rejected. -/
theorem bool_literal_echoed_not_rejected :
    calculatorOnTree "True" (Except.ok (PyAst.Constant (PyVal.boolV true))) = "True = True" ∧
    "True = True" ≠ invalidEquation := by
  exact ⟨by decide, by decide⟩

/-- C5 as amended: a top-level literal whose value fails the
`isinstance(value, (int, float))` test of line 36 (strings, None, and any
other non-numeric constant type) is rejected with "Invalid equation", while a
boolean literal — numeric by subclassing — is accepted and echoed with its
Python rendering. -/
theorem nonnumeric_literals_rejected_except_bool :
    (∀ (equation : String) (v : PyVal), v.isNumeric = false →
        calculatorOnTree equation (Except.ok (PyAst.Constant v)) = invalidEquation) ∧
    (∀ (equation : String) (b : Bool),
        calculatorOnTree equation (Except.ok (PyAst.Constant (PyVal.boolV b))) =
          equation ++ " = " ++ pyStr (PyVal.boolV b)) := by
  constructor
  · intro equation v hv
    refine calcOT_visit_error equation (PyAst.Constant v)
      (PyErr.valueError "Only numeric constants allowed") rfl ?_
    simp [visit, hv]
  · intro equation b
    cases b with
    | false => exact calcOT_format equation _ _ _ rfl rfl rfl
    | true => exact calcOT_format equation _ _ _ rfl rfl rfl

/-- Witness for the amended C5: a string literal is rejected, a boolean
literal is echoed. -/
theorem nonnumeric_literals_rejected_except_bool_witness :
    (PyVal.strV "a").isNumeric = false ∧
    calculatorOnTree "\"a\"" (Except.ok (PyAst.Constant (PyVal.strV "a"))) = invalidEquation ∧
    calculatorOnTree "False" (Except.ok (PyAst.Constant (PyVal.boolV false))) =
      "False" ++ " = " ++ pyStr (PyVal.boolV false) :=
  ⟨by decide,
   nonnumeric_literals_rejected_except_bool.1 "\"a\"" _ (by decide),
   nonnumeric_literals_rejected_except_bool.2 "False" false⟩

/-- C6: every tree containing a division node — in particular a division
whose right operand evaluates to exactly zero, at any nesting level — makes
the facade return "Invalid equation"; and `handle_division` itself fails with
the division-by-zero ValueError exactly when `denominator == 0` (true for int
0, False, 0.0 and -0.0) and otherwise returns the true-division quotient. -/
theorem division_by_zero_yields_invalid :
    (∀ (equation : String) (t : PyAst), treeHasDiv t = true →
        calculatorOnTree equation (Except.ok t) = invalidEquation) ∧
    (∀ numerator denominator : PyVal, pyEqZero denominator = true →
        handle_division numerator denominator =
          Except.error (PyErr.valueError
            ("Division by zero: " ++ pyStr numerator ++ " / " ++ pyStr denominator))) ∧
    (∀ numerator denominator : PyVal, pyEqZero denominator = false →
        handle_division numerator denominator = pyDiv numerator denominator) := by
  refine ⟨?_, ?_, ?_⟩
  · intro equation t ht
    obtain ⟨e, he⟩ := visit_error_of_hasBinP isDivKind t ht
    cases hw : walkRejects t with
    | true => exact calcOT_walk_rejected equation t hw
    | false => exact calcOT_visit_error equation t e hw he
  · intro numerator denominator hd
    simp [handle_division, hd]
  · intro numerator denominator hd
    simp [handle_division, hd]

/-- Witness for C6 at concrete inputs: the tree of "1/0", plus
`handle_division` at a zero and at a nonzero denominator. -/
theorem division_by_zero_yields_invalid_witness :
    treeHasDiv (PyAst.BinOp (PyAst.Constant (PyVal.intV 1)) BinOpKind.Div
      (PyAst.Constant (PyVal.intV 0))) = true ∧
    calculatorOnTree "1/0"
      (Except.ok (PyAst.BinOp (PyAst.Constant (PyVal.intV 1)) BinOpKind.Div
        (PyAst.Constant (PyVal.intV 0)))) = invalidEquation ∧
    pyEqZero (PyVal.intV 0) = true ∧
    handle_division (PyVal.intV 1) (PyVal.intV 0) =
      Except.error (PyErr.valueError
        ("Division by zero: " ++ pyStr (PyVal.intV 1) ++ " / " ++ pyStr (PyVal.intV 0))) ∧
    pyEqZero (PyVal.intV 2) = false ∧
    handle_division (PyVal.intV 1) (PyVal.intV 2) = pyDiv (PyVal.intV 1) (PyVal.intV 2) :=
  ⟨by decide,
   division_by_zero_yields_invalid.1 "1/0" _ (by decide),
   by decide,
   division_by_zero_yields_invalid.2.1 (PyVal.intV 1) (PyVal.intV 0) (by decide),
   by decide,
   division_by_zero_yields_invalid.2.2 (PyVal.intV 1) (PyVal.intV 2) (by decide)⟩

/-- C7: the claim requires the final magnitude check to reject every
non-finite result, NaN explicitly included.  The code's check is
`abs(result) > 1e308` (line 90), and in IEEE comparison `abs(nan) > 1e308` is
False: a NaN final result passes the check silently and would be echoed,
while an infinite result is correctly rejected.  This theorem evaluates the
embedded check (and the facade built on it) at the failing input. -/
theorem nan_passes_final_magnitude_check :
    checkOverflow (PyVal.floatV PyFloat.nan) = Except.ok (PyVal.floatV PyFloat.nan) ∧
    checkOverflow (PyVal.floatV PyFloat.inf) =
      Except.error (PyErr.valueError "Result too large") ∧
    calculatorOnTree "nan" (Except.ok (PyAst.Constant (PyVal.floatV PyFloat.nan))) =
      "nan = nan" := by
  exact ⟨rfl, rfl, by decide⟩

/-- C8: the claim says unary sign evaluation makes `calculate("-5+3")` return
-2 and `calculate("--5")` return 5.  Double negation indeed works ("--5" is
echoed as "--5 = 5"), but "-5+3" parses to a BinOp (Add) node, and every
BinOp fails with AttributeError because the constructor named `init` never
ran: the code answers "Invalid equation" instead of -2.  This theorem
evaluates the embedded code at both inputs. -/
theorem unary_sign_examples_on_code :
    calculatorOnTree "-5+3"
      (Except.ok (PyAst.BinOp (PyAst.UnaryOp UnaryOpKind.USub (PyAst.Constant (PyVal.intV 5)))
        BinOpKind.Add (PyAst.Constant (PyVal.intV 3)))) = invalidEquation ∧
    calculatorOnTree "--5"
      (Except.ok (PyAst.UnaryOp UnaryOpKind.USub
        (PyAst.UnaryOp UnaryOpKind.USub (PyAst.Constant (PyVal.intV 5))))) = "--5 = 5" := by
  exact ⟨by decide, by decide⟩

/-- C9: the facade always returns a string and never lets an exception
escape: for every original equation text and every parse outcome — syntax
errors from malformed inputs such as "2+" or "" included — the result is
either the uniform rejection string "Invalid equation" or the success format
"equation = value". -/
theorem calculator_always_returns_uniform_string :
    ∀ (equation : String) (parsed : Except PyErr PyAst),
      calculatorOnTree equation parsed = invalidEquation ∨
        ∃ v : PyVal, calculatorOnTree equation parsed = equation ++ " = " ++ pyStr v := by
  intro equation parsed
  cases parsed with
  | error e => exact Or.inl rfl
  | ok t =>
    cases hw : walkRejects t with
    | true => exact Or.inl (calcOT_walk_rejected equation t hw)
    | false =>
      rcases hv : visit Option.none t with e | v
      · exact Or.inl (calcOT_visit_error equation t e hw hv)
      · rcases hc : checkOverflow v with e | r
        · exact Or.inl (calcOT_check_error equation t v e hw hv hc)
        · exact Or.inr ⟨r, calcOT_format equation t v r hw hv hc⟩

/-- C10: the facade is deterministic and stateless across calls.  Each call
constructs its own fresh transformer (line 85) and the module has no
module-level mutable state, so a batch of calls is exactly the per-call map:
running the same call twice yields character-for-character identical outputs,
and the outcome of any call in a sequence is a function of that call's input
alone, unaffected by the calls (failing ones included) before or after it. -/
theorem calculator_stateless_and_deterministic :
    (∀ c : String × Except PyErr PyAst,
        calculatorBatch [c, c] = [calculatorOnTree c.1 c.2, calculatorOnTree c.1 c.2]) ∧
    (∀ (pre : List (String × Except PyErr PyAst)) (c : String × Except PyErr PyAst)
        (post : List (String × Except PyErr PyAst)),
        calculatorBatch (pre ++ c :: post) =
          calculatorBatch pre ++ calculatorOnTree c.1 c.2 :: calculatorBatch post) := by
  constructor
  · intro c; rfl
  · intro pre c post; simp [calculatorBatch]

end SaferMath
